import Mathlib

/-!
Verification development for the vuemantics real-time progress channel.

This file shallowly embeds the client-side WebSocket state machine and the
progress aggregators of the repository:

* `src/frontend/src/core/socket/socket.types.ts` — zod message schemas
  (`serverMessageSchema` and its variant schemas);
* `socket.client.ts` (class `VuemanticWebSocket`) — connection lifecycle,
  heartbeat, reconnection backoff, message dispatch;
* `useBatchProgress.ts` — batch progress aggregator hook;
* `global-batch-progress.store.ts` — global batch progress store;
* `useFileProgress.ts` — currently-processing-file aggregator;
* `useUploadProgress.ts` — single-upload progress aggregator.

JavaScript `Record<string, T>` objects are modelled as association lists with
`lookupKey` / `insertKey` / `eraseKey`; `setTimeout` timers are modelled as a
list of (fire time, key) pairs together with an explicit current time, and a
function that delivers all timers due at a given time.  JS numbers are
modelled as `ℚ` (every wire value in scope is an integer or a finite decimal;
no claim depends on floating-point rounding).  The event-driven object
`VuemanticWebSocket` is modelled as explicit state passing: every handler is
a function from state to state plus a list of observable effects (frames
sent, callbacks fired, timers cleared, physical closes).
-/

namespace Vuemantics

/-- A JSON value, as produced by a successful `JSON.parse`. -/
inductive Json where
  | null : Json
  | bool (b : Bool) : Json
  | num (q : ℚ) : Json
  | str (s : String) : Json
  | arr (elems : List Json) : Json
  | obj (fields : List (String × Json)) : Json

/-- First-match lookup in an association list (JS object field access). -/
def lookupKey {α : Type} (k : String) : List (String × α) → Option α
  | [] => none
  | kv :: rest => if kv.1 = k then some kv.2 else lookupKey k rest

/-- Remove every binding of key `k` (JS `delete obj[k]`). -/
def eraseKey {α : Type} (k : String) : List (String × α) → List (String × α)
  | [] => []
  | kv :: rest => if kv.1 = k then eraseKey k rest else kv :: eraseKey k rest

/-- Update-or-add a binding (JS spread update `prev` with `[k]: v`).  We
prepend and erase older bindings; only `lookupKey`-semantics matter. -/
def insertKey {α : Type} (k : String) (v : α) (m : List (String × α)) :
    List (String × α) :=
  (k, v) :: eraseKey k m

theorem lookupKey_insertKey_self {α : Type} (k : String) (v : α)
    (m : List (String × α)) : lookupKey k (insertKey k v m) = some v := by
  simp [insertKey, lookupKey]

theorem lookupKey_eraseKey_self {α : Type} (k : String)
    (m : List (String × α)) : lookupKey k (eraseKey k m) = none := by
  induction m with
  | nil => simp [eraseKey, lookupKey]
  | cons kv rest ih =>
    by_cases h : kv.1 = k
    · simpa [eraseKey, h] using ih
    · simp [eraseKey, lookupKey, h, ih]

theorem lookupKey_eraseKey_none {α : Type} (k k' : String)
    (m : List (String × α)) (h : lookupKey k m = none) :
    lookupKey k (eraseKey k' m) = none := by
  induction m with
  | nil => simp [eraseKey, lookupKey]
  | cons kv rest ih =>
    by_cases hk : kv.1 = k
    · simp [lookupKey, hk] at h
    · simp [lookupKey, hk] at h
      by_cases hk' : kv.1 = k'
      · simpa [eraseKey, hk'] using ih h
      · simp [eraseKey, lookupKey, hk, hk', ih h]

/-! ## Message schemas (socket.types.ts)

The zod schemas are embedded as validators `Json → Option _`.  A zod object
schema requires every declared field to validate and ignores extra keys;
`z.discriminatedUnion` on `action` fails on any `action` value that is not
one of the declared literals. -/

/-- Embeds `processingStatusSchema` enum values. -/
def processingStatusValues : List String :=
  ["pending", "analyzing", "embedding", "completed", "failed"]

/-- Embeds `processingStageSchema` enum values. -/
def processingStageValues : List String :=
  ["queued", "extracting_frames", "vision_analysis", "description_audit",
   "embedding_generation", "indexing", "completed", "failed"]

def isHexDigit (c : Char) : Bool :=
  c.isDigit || (97 ≤ c.toNat && c.toNat ≤ 102) || (65 ≤ c.toNat && c.toNat ≤ 70)

/-- The structural part of the zod `z.string().uuid()` check: five
hyphen-separated hex groups of lengths 8-4-4-4-12. -/
def isUuid (s : String) : Bool :=
  match s.splitOn "-" with
  | [a, b, c, d, e] =>
    a.length = 8 && b.length = 4 && c.length = 4 && d.length = 4 &&
    e.length = 12 && (a ++ b ++ c ++ d ++ e).toList.all isHexDigit
  | _ => false

def Json.asObj : Json → Option (List (String × Json))
  | .obj fields => some fields
  | _ => none

/-- Embeds `z.string()`. -/
def Json.asString : Json → Option String
  | .str s => some s
  | _ => none

/-- Embeds `z.string().uuid()`. -/
def Json.asUuid : Json → Option String
  | .str s => if isUuid s then some s else none
  | _ => none

/-- Embeds `z.string().nullable()`. -/
def Json.asNullableString : Json → Option (Option String)
  | .null => some none
  | .str s => some (some s)
  | _ => none

/-- Embeds `z.number().int().min(lo).max(hi)`. -/
def Json.asIntInRange (lo hi : ℚ) : Json → Option ℚ
  | .num q => if q.den = 1 ∧ lo ≤ q ∧ q ≤ hi then some q else none
  | _ => none

/-- Embeds `z.number().int().min(lo).max(hi).nullable()`. -/
def Json.asNullableIntInRange (lo hi : ℚ) : Json → Option (Option ℚ)
  | .null => some none
  | .num q => if q.den = 1 ∧ lo ≤ q ∧ q ≤ hi then some (some q) else none
  | _ => none

/-- Embeds `z.enum(values)`. -/
def Json.asEnum (values : List String) : Json → Option String
  | .str s => if s ∈ values then some s else none
  | _ => none

/-- Payload of `uploadProgressPayloadSchema`. -/
structure UploadProgressPayload where
  upload_id : String
  status : String
  stage : String
  progress_percent : ℚ
  message : String
  error_message : Option String
  description_audit_score : Option ℚ
  deriving Repr, DecidableEq

/-- Embeds `uploadProgressUpdateSchema` (action literal omitted; it is the
discriminant). -/
structure UploadProgressUpdate where
  payload : UploadProgressPayload
  timestamp : String
  deriving Repr, DecidableEq

/-- Embeds `uploadCompletedSchema`. -/
structure UploadCompleted where
  upload_id : String
  description : String
  audit_score : ℚ
  timestamp : String
  deriving Repr, DecidableEq

/-- Embeds `uploadFailedSchema`. -/
structure UploadFailed where
  upload_id : String
  error_message : String
  timestamp : String
  deriving Repr, DecidableEq

/-- Embeds `ServerMessage`: exactly the variants of `serverMessageSchema`
(socket.types.ts lines 72-79).  Note the union has no batch_progress and no
file_progress variant. -/
inductive ServerMessage where
  | uploadProgress (u : UploadProgressUpdate)
  | uploadCompleted (u : UploadCompleted)
  | uploadFailed (u : UploadFailed)
  | authSuccess (user_id : String)
  | authError (message : String)
  | ping
  deriving Repr, DecidableEq

/-- Embeds `uploadProgressPayloadSchema.safeParse`. -/
def parseUploadProgressPayload (j : Json) : Option UploadProgressPayload := do
  let fs ← j.asObj
  let uid ← (← lookupKey "upload_id" fs).asUuid
  let status ← (← lookupKey "status" fs).asEnum processingStatusValues
  let stage ← (← lookupKey "stage" fs).asEnum processingStageValues
  let percent ← (← lookupKey "progress_percent" fs).asIntInRange 0 100
  let msg ← (← lookupKey "message" fs).asString
  let errMsg ← (← lookupKey "error_message" fs).asNullableString
  let audit ← (← lookupKey "description_audit_score" fs).asNullableIntInRange 0 100
  pure ⟨uid, status, stage, percent, msg, errMsg, audit⟩

/-- Embeds `serverMessageSchema.safeParse`: discriminated union on `action` over the
six variant schemas of socket.types.ts.  Any other `action` value (including
"batch_progress" and "file_progress") fails. -/
def parseServerMessage (j : Json) : Option ServerMessage := do
  let fs ← j.asObj
  let act ← (← lookupKey "action" fs).asString
  if act = "upload_progress" then
    let payload ← parseUploadProgressPayload (← lookupKey "payload" fs)
    let ts ← (← lookupKey "timestamp" fs).asString
    pure (.uploadProgress ⟨payload, ts⟩)
  else if act = "upload_completed" then
    let uid ← (← lookupKey "upload_id" fs).asUuid
    let desc ← (← lookupKey "description" fs).asString
    let audit ← (← lookupKey "audit_score" fs).asIntInRange 0 100
    let ts ← (← lookupKey "timestamp" fs).asString
    pure (.uploadCompleted ⟨uid, desc, audit, ts⟩)
  else if act = "upload_failed" then
    let uid ← (← lookupKey "upload_id" fs).asUuid
    let errMsg ← (← lookupKey "error_message" fs).asString
    let ts ← (← lookupKey "timestamp" fs).asString
    pure (.uploadFailed ⟨uid, errMsg, ts⟩)
  else if act = "auth_success" then
    let uid ← (← lookupKey "user_id" fs).asString
    pure (.authSuccess uid)
  else if act = "auth_error" then
    let msg ← (← lookupKey "message" fs).asString
    pure (.authError msg)
  else if act = "ping" then
    pure .ping
  else
    none

/-! ## The socket client (socket.client.ts, class VuemanticWebSocket)

State fields mirror the private fields of the class.  `ws : Bool` records
whether `this.ws` currently holds a socket object (`this.ws !== null`).
`reconnectTimer : Option ℚ` records a pending (armed, not yet fired)
reconnect timer together with its scheduled delay; the source keeps a stale
numeric timer id after the timer fires, which is observable only as a
harmless `clearTimeout` on a dead id, so we model the pending timer itself.
`heartbeatTimer : Bool` records whether the heartbeat interval is running.
Handlers return the updated state and the list of observable effects, in
program order. -/

/-- Client-to-server frames (socket.client.ts send sites). -/
inductive ClientMsg where
  | auth (token : String)
  | pong
  | subscribeUpload (upload_id : String)
  | unsubscribeUpload (upload_id : String)
  deriving Repr, DecidableEq

/-- The `WebSocketError` values the client can report, by
`WEBSOCKET_ERROR_MESSAGES` constant (with the extra data the source
attaches: the server message for auth_error, the close code for
AUTH_FAILED). -/
inductive ErrKind where
  | noToken
  | authFailed (code : Nat)
  | connectionFailed
  | maxRetries
  | serverAuthError (message : String)
  deriving Repr, DecidableEq

/-- Observable effects of the client: frames sent, config callbacks invoked,
timers cleared, physical socket closes. -/
inductive Effect where
  | send (m : ClientMsg)
  | cbError (e : ErrKind)
  | cbReconnect
  | cbProgress (d : UploadProgressUpdate)
  | cbCompleted (d : UploadCompleted)
  | cbFailed (d : UploadFailed)
  | clearReconnectTimer
  | clearHeartbeatTimer
  | closeSocket (code : Nat)
  deriving Repr, DecidableEq

/-- Private state of `VuemanticWebSocket`. -/
structure WS where
  ws : Bool
  attempt : Nat
  heartbeatTimer : Bool
  reconnectTimer : Option ℚ
  isIntentionallyClosed : Bool
  deriving Repr, DecidableEq

/-- Field initializers of the class. -/
def WS.init : WS :=
  { ws := false, attempt := 0, heartbeatTimer := false,
    reconnectTimer := none, isIntentionallyClosed := false }

def maxRetries : Nat := 10
def initialDelay : ℚ := 1000
def maxDelay : ℚ := 30000

/-- Embeds `stopHeartbeat()`. -/
def stopHeartbeat (s : WS) : WS × List Effect :=
  if s.heartbeatTimer then
    ({ s with heartbeatTimer := false }, [.clearHeartbeatTimer])
  else (s, [])

/-- Embeds `close()`: mark intentional close, clear a pending reconnect timer, stop
the heartbeat, then close and drop the physical socket with code 1000. -/
def closeFn (s : WS) : WS × List Effect :=
  let s1 : WS := { s with isIntentionallyClosed := true }
  let timerStep : WS × List Effect :=
    match s1.reconnectTimer with
    | some _ => ({ s1 with reconnectTimer := none }, [.clearReconnectTimer])
    | none => (s1, [])
  let s2 := timerStep.1
  let hbStep := stopHeartbeat s2
  let s3 := hbStep.1
  let sockStep : WS × List Effect :=
    if s3.ws then ({ s3 with ws := false }, [.closeSocket 1000])
    else (s3, [])
  (sockStep.1, timerStep.2 ++ hbStep.2 ++ sockStep.2)

/-- Embeds `scheduleReconnect()`: refuse once `attempt` has reached `maxRetries`
(reporting MAX_RETRIES); otherwise increment the attempt counter, compute
`min(initialDelay * 2 ** (attempt - 1), maxDelay)` plus jitter, and arm the
reconnect timer.  `jitter` stands for the evaluation of
`Math.random() * 3000`, a value in [0, 3000). -/
def scheduleReconnect (jitter : ℚ) (s : WS) : WS × List Effect :=
  if s.attempt ≥ maxRetries then
    (s, [.cbError .maxRetries])
  else
    let a := s.attempt + 1
    let baseDelay : ℚ := min (initialDelay * 2 ^ (a - 1)) maxDelay
    ({ s with attempt := a, reconnectTimer := some (baseDelay + jitter) }, [])

/-- Embeds `connect()`: read a fresh token; with no token report NO_TOKEN and stop,
otherwise create a new physical socket (and install the handlers). -/
def connectFn (token : Option String) (s : WS) : WS × List Effect :=
  match token with
  | none => (s, [.cbError .noToken])
  | some _ => ({ s with ws := true }, [])

/-- The `onopen` handler: zero the attempt counter, send the auth frame
(via `this.ws?.send`), start the heartbeat interval. -/
def onopenHandler (token : String) (s : WS) : WS × List Effect :=
  ({ s with attempt := 0, heartbeatTimer := true },
   if s.ws then [.send (.auth token)] else [])

/-- The `onmessage` handler.  `raw = none` models an `event.data` on which
`JSON.parse` throws (the catch block ignores it); otherwise the frame is
validated by `serverMessageSchema.safeParse` and dispatched by `action`.
The source's switch also has cases for batch_progress and file_progress,
but `serverMessageSchema` has no such variants, so those cases are
unreachable and have no counterpart here. -/
def onmessageHandler (raw : Option Json) (s : WS) : WS × List Effect :=
  match raw with
  | none => (s, [])
  | some j =>
    match parseServerMessage j with
    | none => (s, [])
    | some m =>
      match m with
      | .authSuccess _ => (s, [.cbReconnect])
      | .authError msg =>
        let closed := closeFn s
        (closed.1, .cbError (.serverAuthError msg) :: closed.2)
      | .uploadProgress d => (s, [.cbProgress d])
      | .uploadCompleted d => (s, [.cbCompleted d])
      | .uploadFailed d => (s, [.cbFailed d])
      | .ping => (s, if s.ws then [.send .pong] else [])

/-- The `onclose` handler: stop the heartbeat; then return without retry if
the close was intentional or the code is 1000; report AUTH_FAILED without
retry for codes 4001-4004; otherwise take the backoff path. -/
def oncloseHandler (code : Nat) (jitter : ℚ) (s : WS) : WS × List Effect :=
  let hb := stopHeartbeat s
  let s1 := hb.1
  if s1.isIntentionallyClosed then (s1, hb.2)
  else if code = 1000 then (s1, hb.2)
  else if 4001 ≤ code ∧ code ≤ 4004 then
    (s1, hb.2 ++ [.cbError (.authFailed code)])
  else
    let sr := scheduleReconnect jitter s1
    (sr.1, hb.2 ++ sr.2)

/-- The `onerror` handler. -/
def onerrorHandler (s : WS) : WS × List Effect :=
  (s, [.cbError .connectionFailed])

/-- External events driving the client: browser socket events, the reconnect
timer firing (which runs `connect()` with a freshly read token), and the
consumer calling `close()`. -/
inductive Ev where
  | wsOpen (token : String)
  | wsMessage (raw : Option Json)
  | wsClose (code : Nat) (jitter : ℚ)
  | wsError
  | timerFire (token : Option String)
  | apiClose

def Ev.isMessage : Ev → Bool
  | .wsMessage _ => true
  | _ => false

def stepEv (s : WS) : Ev → WS × List Effect
  | .wsOpen token => onopenHandler token s
  | .wsMessage raw => onmessageHandler raw s
  | .wsClose code jitter => oncloseHandler code jitter s
  | .wsError => onerrorHandler s
  | .timerFire token =>
    match s.reconnectTimer with
    | some _ => connectFn token { s with reconnectTimer := none }
    | none => (s, [])
  | .apiClose => closeFn s

/-- Run a list of events, accumulating effects in order. -/
def runEvs : List Ev → WS → WS × List Effect
  | [], s => (s, [])
  | e :: rest, s =>
    let st := stepEv s e
    let r := runEvs rest st.1
    (r.1, st.2 ++ r.2)

def isMaxRetriesError : Effect → Bool
  | .cbError .maxRetries => true
  | _ => false

/-- Number of MAX_RETRIES error callbacks in an effect list. -/
def countMaxRetries (l : List Effect) : Nat :=
  l.countP isMaxRetriesError

/-! ## Progress aggregators

`setTimeout(..., 5000)` auto-expiry timers are modelled as (fire time, key)
pairs relative to an explicit current time `now`; `advance`-style functions
deliver every timer due at a given time, in scheduling order.  The source
never stores the timeout ids of these timers, so nothing can cancel them. -/

/-- Deliver all timers due at time `t`: each due timer deletes its key from
the map; timers not yet due remain pending.  Returns (remaining timers,
updated map). -/
def fireDueTimers {α : Type} (t : Nat) (timers : List (Nat × String))
    (m : List (String × α)) : List (Nat × String) × List (String × α) :=
  (timers.filter (fun p => decide (t < p.1)),
   (timers.filter (fun p => decide (p.1 ≤ t))).foldl
     (fun acc p => eraseKey p.2 acc) m)

theorem lookupKey_foldl_eraseKey_none {α : Type} (id : String)
    (l : List (Nat × String)) (m : List (String × α))
    (h : lookupKey id m = none) :
    lookupKey id (l.foldl (fun acc p => eraseKey p.2 acc) m) = none := by
  induction l generalizing m with
  | nil => simpa using h
  | cons p rest ih => exact ih _ (lookupKey_eraseKey_none _ _ _ h)

theorem lookupKey_foldl_eraseKey_of_mem {α : Type} (id : String)
    (l : List (Nat × String)) (m : List (String × α))
    (h : ∃ p ∈ l, p.2 = id) :
    lookupKey id (l.foldl (fun acc p => eraseKey p.2 acc) m) = none := by
  induction l generalizing m with
  | nil => rcases h with ⟨p, hp, _⟩; simp at hp
  | cons q rest ih =>
    rcases h with ⟨p, hp, hid⟩
    rcases List.mem_cons.mp hp with hq | hrest
    · subst hq
      exact lookupKey_foldl_eraseKey_none id rest _
        (hid ▸ lookupKey_eraseKey_self _ _)
    · exact ih _ ⟨p, hrest, hid⟩

/-- Batch entry shape: `BatchProgressState` of useBatchProgress.ts, which is
field-for-field the `BatchProgress` interface of
global-batch-progress.store.ts. -/
structure BatchProgressState where
  status : String
  total : ℚ
  processed : ℚ
  successful : ℚ
  failed : ℚ
  progressPercentage : ℚ
  deriving Repr, DecidableEq

/-- Payload of a `batch_progress` frame as consumed by
`useBatchProgress.handleBatchProgress`.  Modelled from the spec: the
`BatchProgressUpdate` type is imported from socket.types.ts but is not
defined there; its payload fields are those destructured by the hook and
listed in the spec's wire protocol for batch_progress. -/
structure BatchProgressPayload where
  batch_id : String
  status : String
  total : ℚ
  processed : ℚ
  successful : ℚ
  failed : ℚ
  progress_percentage : ℚ
  deriving Repr, DecidableEq

structure BatchProgressUpdate where
  payload : BatchProgressPayload
  deriving Repr, DecidableEq

/-- State of the useBatchProgress hook: the `batchProgress` record plus the
pending auto-clear timeouts and the current time. -/
structure HookBatchState where
  batchProgress : List (String × BatchProgressState)
  timers : List (Nat × String)
  now : Nat
  deriving Repr, DecidableEq

def HookBatchState.init : HookBatchState :=
  { batchProgress := [], timers := [], now := 0 }

/-- Embeds `useBatchProgress.handleBatchProgress`: upsert the entry; if the status
is completed, failed or cancelled, schedule deletion of the entry 5000 ms
later. -/
def handleBatchProgress (data : BatchProgressUpdate) (s : HookBatchState) :
    HookBatchState :=
  let p := data.payload
  let entry : BatchProgressState :=
    ⟨p.status, p.total, p.processed, p.successful, p.failed,
     p.progress_percentage⟩
  let s1 : HookBatchState :=
    { s with batchProgress := insertKey p.batch_id entry s.batchProgress }
  if p.status = "completed" ∨ p.status = "failed" ∨ p.status = "cancelled" then
    { s1 with timers := s1.timers ++ [(s1.now + 5000, p.batch_id)] }
  else s1

/-- Embeds `useBatchProgress.setBatchProgress` (plain upsert, no timer). -/
def setBatchProgressHook (batchId : String) (progress : BatchProgressState)
    (s : HookBatchState) : HookBatchState :=
  { s with batchProgress := insertKey batchId progress s.batchProgress }

/-- Embeds `useBatchProgress.clearBatchProgress`: delete the entry.  No timeout id
was stored, so no pending auto-clear timer is cancelled. -/
def clearBatchProgress (batchId : String) (s : HookBatchState) :
    HookBatchState :=
  { s with batchProgress := eraseKey batchId s.batchProgress }

/-- Embeds `useBatchProgress.clearAllBatchProgress`: reset the record to empty.
Again no timer is cancelled. -/
def clearAllBatchProgress (s : HookBatchState) : HookBatchState :=
  { s with batchProgress := [] }

/-- Let time advance to `t`: every due auto-clear timeout fires. -/
def advanceHook (t : Nat) (s : HookBatchState) : HookBatchState :=
  let fired := fireDueTimers t s.timers s.batchProgress
  { batchProgress := fired.2, timers := fired.1, now := t }

/-- State of the global zustand store (global-batch-progress.store.ts),
restricted to the batch map, its pending auto-clear timeouts, the current
file, and the current time. -/
structure StoreState where
  batchProgress : List (String × BatchProgressState)
  currentFile : Option (String × String)
  timers : List (Nat × String)
  now : Nat
  deriving Repr, DecidableEq

def StoreState.init : StoreState :=
  { batchProgress := [], currentFile := none, timers := [], now := 0 }

/-- Embeds `useGlobalBatchProgress.setBatchProgress`: upsert; schedule deletion
5000 ms later only when the status is completed or failed (note: not for
cancelled). -/
def setBatchProgressStore (batchId : String) (progress : BatchProgressState)
    (s : StoreState) : StoreState :=
  let s1 : StoreState :=
    { s with batchProgress := insertKey batchId progress s.batchProgress }
  if progress.status = "completed" ∨ progress.status = "failed" then
    { s1 with timers := s1.timers ++ [(s1.now + 5000, batchId)] }
  else s1

/-- Embeds `useGlobalBatchProgress.clearBatch`: delete the entry; no timer is
cancelled. -/
def clearBatchStore (batchId : String) (s : StoreState) : StoreState :=
  { s with batchProgress := eraseKey batchId s.batchProgress }

/-- Let time advance to `t` in the store. -/
def advanceStore (t : Nat) (s : StoreState) : StoreState :=
  let fired := fireDueTimers t s.timers s.batchProgress
  { s with batchProgress := fired.2, timers := fired.1, now := t }

/-! ### useFileProgress.ts -/

/-- The status union of `FileProgressState`. -/
inductive FStatus where
  | processing
  | completed
  | failed
  deriving Repr, DecidableEq

/-- Embeds `FileProgressState` of useFileProgress.ts. -/
structure FileProgressState where
  uploadId : String
  fileName : String
  fileSize : ℚ
  progress : ℚ
  status : FStatus
  deriving Repr, DecidableEq

/-- Payload of a `file_progress` frame as consumed by
`useFileProgress.handleFileProgress`.  Modelled from the spec: the
`FileProgressUpdate` type is imported from socket.types.ts but is not
defined there; its payload fields are those read by the hook and listed in
the spec's wire protocol for file_progress. -/
structure FileProgressPayload where
  upload_id : String
  file_name : String
  file_size : ℚ
  progress_percentage : ℚ
  status : FStatus
  deriving Repr, DecidableEq

structure FileProgressUpdate where
  payload : FileProgressPayload
  deriving Repr, DecidableEq

/-- State of the useFileProgress hook. -/
structure FileAggState where
  fileProgress : List (String × FileProgressState)
  currentFile : Option FileProgressState
  timers : List (Nat × String)
  now : Nat
  deriving Repr, DecidableEq

def FileAggState.init : FileAggState :=
  { fileProgress := [], currentFile := none, timers := [], now := 0 }

/-- Embeds `useFileProgress.handleFileProgress`: upsert the file map; a processing
event becomes the current file; a completed or failed event clears the
current file and schedules deletion of the map entry 5000 ms later. -/
def handleFileProgress (data : FileProgressUpdate) (s : FileAggState) :
    FileAggState :=
  let p := data.payload
  let fileState : FileProgressState :=
    ⟨p.upload_id, p.file_name, p.file_size, p.progress_percentage, p.status⟩
  let s1 : FileAggState :=
    { s with fileProgress := insertKey p.upload_id fileState s.fileProgress }
  match p.status with
  | .processing => { s1 with currentFile := some fileState }
  | .completed =>
    { s1 with currentFile := none,
              timers := s1.timers ++ [(s1.now + 5000, p.upload_id)] }
  | .failed =>
    { s1 with currentFile := none,
              timers := s1.timers ++ [(s1.now + 5000, p.upload_id)] }

/-- Embeds `useFileProgress.clearFileProgress`: empty the map and clear the current
file (pending timers are not cancelled). -/
def clearFileProgress (s : FileAggState) : FileAggState :=
  { s with fileProgress := [], currentFile := none }

/-- The consumer-visible calls of the useFileProgress hook. -/
inductive FileCall where
  | handle (data : FileProgressUpdate)
  | clear

def stepFileCall (s : FileAggState) : FileCall → FileAggState
  | .handle data => handleFileProgress data s
  | .clear => clearFileProgress s

def runFileCalls (calls : List FileCall) (s : FileAggState) : FileAggState :=
  calls.foldl stepFileCall s

/-! ### useUploadProgress.ts (single-upload aggregator, used to replay
callback effects for the malformed-frame claim) -/

/-- Embeds `ProgressState` of useUploadProgress.ts. -/
structure ProgressState where
  percent : ℚ
  stage : String
  message : String
  deriving Repr, DecidableEq

/-- Embeds `useUploadProgress.handleProgress`. -/
def handleProgress (data : UploadProgressUpdate)
    (m : List (String × ProgressState)) : List (String × ProgressState) :=
  insertKey data.payload.upload_id
    ⟨data.payload.progress_percent, data.payload.stage, data.payload.message⟩ m

/-- Embeds `useUploadProgress.handleCompleted`: set the entry to 100 percent and
stage completed, run the completion side effect, then delete the entry. -/
def handleCompleted (data : UploadCompleted)
    (m : List (String × ProgressState)) : List (String × ProgressState) :=
  let m1 := insertKey data.upload_id ⟨100, "completed", "Refreshing..."⟩ m
  eraseKey data.upload_id m1

/-- Embeds `useUploadProgress.handleFailed`: delete the entry. -/
def handleFailed (data : UploadFailed)
    (m : List (String × ProgressState)) : List (String × ProgressState) :=
  eraseKey data.upload_id m

/-- Combined aggregator states reachable from socket callbacks. -/
structure AggStates where
  upload : List (String × ProgressState)
  batch : HookBatchState
  file : FileAggState
  deriving Repr, DecidableEq

/-- Replay one socket effect into the aggregators: the upload progress,
completed and failed callbacks run the useUploadProgress handlers; no
effect the validator can produce reaches the batch or file aggregators
(serverMessageSchema has no such variants); non-callback effects do not
touch aggregator state. -/
def applyEffect (a : AggStates) : Effect → AggStates
  | .cbProgress d => { a with upload := handleProgress d a.upload }
  | .cbCompleted d => { a with upload := handleCompleted d a.upload }
  | .cbFailed d => { a with upload := handleFailed d a.upload }
  | _ => a

def applyEffects (l : List Effect) (a : AggStates) : AggStates :=
  l.foldl applyEffect a

/-! ## Shared facts and concrete states -/

theorem stopHeartbeat_state (s : WS) :
    (stopHeartbeat s).1 = { s with heartbeatTimer := false } := by
  cases s with
  | mk ws attempt hb rt ic =>
    cases hb <;> simp [stopHeartbeat]

theorem closeFn_attempt (s : WS) : (closeFn s).1.attempt = s.attempt := by
  cases s with
  | mk ws attempt hb rt ic =>
    cases rt <;> cases hb <;> cases ws <;> simp [closeFn, stopHeartbeat]

/-- A freshly opened, authenticated-or-not connection right after `onopen`:
socket present, heartbeat running, no retries pending. -/
def wsConnected : WS :=
  { ws := true, attempt := 0, heartbeatTimer := true, reconnectTimer := none,
    isIntentionallyClosed := false }

/-- A connection mid-backoff with two retries burned, used as a concrete
input for attempt number three. -/
def wsAttempt2 : WS :=
  { ws := false, attempt := 2, heartbeatTimer := false, reconnectTimer := none,
    isIntentionallyClosed := false }

/-- A connection on which the consumer already called `close()`. -/
def wsIntentional : WS :=
  { ws := true, attempt := 0, heartbeatTimer := true, reconnectTimer := none,
    isIntentionallyClosed := true }

/-! ## C9 -/

/-- C9: `close()` sets the intentional-close flag, cancels any pending
reconnect timer, stops the heartbeat, and closes the physical socket with
code 1000, in that order (the effect list is exactly the cancellation, the
heartbeat stop and the physical close, each present exactly when there is
something to cancel, in program order); a second `close()` changes nothing
and performs no further timer cancellation and no further physical close. -/
theorem C9_close_order_and_idempotent (s : WS) :
    (closeFn s).1.isIntentionallyClosed = true ∧
    (closeFn s).1.reconnectTimer = none ∧
    (closeFn s).1.heartbeatTimer = false ∧
    (closeFn s).1.ws = false ∧
    (closeFn s).2 =
      (if s.reconnectTimer.isSome then [Effect.clearReconnectTimer] else []) ++
        (if s.heartbeatTimer then [Effect.clearHeartbeatTimer] else []) ++
        (if s.ws then [Effect.closeSocket 1000] else []) ∧
    closeFn (closeFn s).1 = ((closeFn s).1, []) := by
  cases s with
  | mk ws attempt hb rt ic =>
    cases rt <;> cases hb <;> cases ws <;>
      simp [closeFn, stopHeartbeat]

/-! ## C3 -/

/-- C3: disposition of the `onclose` handler.  After stopping the
heartbeat: an intentional close retries nothing (the reconnect timer is
untouched and no further effect fires); close code 1000 likewise; a close
code in 4001-4004 reports AUTH_FAILED and retries nothing; every other
close code is handed to the backoff path `scheduleReconnect`, which arms a
backoff timer whenever the attempt budget is not yet exhausted. -/
theorem C3_onclose_disposition (code : Nat) (jitter : ℚ) (s : WS) :
    (s.isIntentionallyClosed = true →
      (oncloseHandler code jitter s).1.reconnectTimer = s.reconnectTimer ∧
      (oncloseHandler code jitter s).2 = (stopHeartbeat s).2) ∧
    (s.isIntentionallyClosed = false → code = 1000 →
      (oncloseHandler code jitter s).1.reconnectTimer = s.reconnectTimer ∧
      (oncloseHandler code jitter s).2 = (stopHeartbeat s).2) ∧
    (s.isIntentionallyClosed = false → 4001 ≤ code → code ≤ 4004 →
      (oncloseHandler code jitter s).1.reconnectTimer = s.reconnectTimer ∧
      (oncloseHandler code jitter s).2 =
        (stopHeartbeat s).2 ++ [Effect.cbError (.authFailed code)]) ∧
    (s.isIntentionallyClosed = false → code ≠ 1000 →
      ¬(4001 ≤ code ∧ code ≤ 4004) →
      oncloseHandler code jitter s =
        ((scheduleReconnect jitter (stopHeartbeat s).1).1,
         (stopHeartbeat s).2 ++ (scheduleReconnect jitter (stopHeartbeat s).1).2) ∧
      (s.attempt < maxRetries →
        (oncloseHandler code jitter s).1.reconnectTimer =
          some (min (initialDelay * 2 ^ s.attempt) maxDelay + jitter))) := by
  have hsh : (stopHeartbeat s).1.isIntentionallyClosed = s.isIntentionallyClosed := by
    rw [stopHeartbeat_state]
  have hrt : (stopHeartbeat s).1.reconnectTimer = s.reconnectTimer := by
    rw [stopHeartbeat_state]
  have hat : (stopHeartbeat s).1.attempt = s.attempt := by
    rw [stopHeartbeat_state]
  refine ⟨?_, ?_, ?_, ?_⟩
  · intro hint
    simp [oncloseHandler, hsh, hint, hrt]
  · intro hint hcode
    simp [oncloseHandler, hsh, hint, hcode, hrt]
  · intro hint h1 h2
    have hne : code ≠ 1000 := by omega
    simp [oncloseHandler, hsh, hint, hne, h1, h2, hrt]
  · intro hint hne hrange
    constructor
    · simp [oncloseHandler, hsh, hint, hne, hrange]
    · intro hlt
      have hge : ¬ maxRetries ≤ s.attempt := by omega
      simp [oncloseHandler, hsh, hint, hne, hrange, scheduleReconnect, hge, hat]

/-- Witness for C3: a recoverable close (code 1006, attempt 0) from a live
connection takes the backoff path and arms a timer with the first backoff
delay. -/
theorem C3_onclose_disposition_witness :
    oncloseHandler 1006 0 wsConnected =
      ((scheduleReconnect 0 (stopHeartbeat wsConnected).1).1,
       (stopHeartbeat wsConnected).2 ++
         (scheduleReconnect 0 (stopHeartbeat wsConnected).1).2) ∧
    (oncloseHandler 1006 0 wsConnected).1.reconnectTimer =
      some (min (initialDelay * 2 ^ wsConnected.attempt) maxDelay + 0) := by
  have h := (C3_onclose_disposition 1006 0 wsConnected).2.2.2
    rfl (by decide) (by decide)
  exact ⟨h.1, h.2 (by decide)⟩

/-! ## C4 -/

/-- C4: for reconnect attempt `n` (1-indexed, `n ≤ 10`, i.e. the attempt
counter was `n - 1` when the recoverable close arrived), the armed delay is
exactly `min(1000 * 2 ^ (n - 1), 30000) + jitter`, and for every jitter in
[0, 3000) it lies in the half-open interval
[min(1000 * 2 ^ (n - 1), 30000), min(1000 * 2 ^ (n - 1), 30000) + 3000). -/
theorem C4_reconnect_delay (s : WS) (n : Nat) (jitter : ℚ)
    (hn : s.attempt + 1 = n) (hmax : n ≤ 10)
    (hj0 : 0 ≤ jitter) (hj3 : jitter < 3000) :
    (scheduleReconnect jitter s).1.reconnectTimer =
      some (min ((1000 : ℚ) * 2 ^ (n - 1)) 30000 + jitter) ∧
    min ((1000 : ℚ) * 2 ^ (n - 1)) 30000 ≤
      min ((1000 : ℚ) * 2 ^ (n - 1)) 30000 + jitter ∧
    min ((1000 : ℚ) * 2 ^ (n - 1)) 30000 + jitter <
      min ((1000 : ℚ) * 2 ^ (n - 1)) 30000 + 3000 := by
  subst hn
  have hlt : ¬ s.attempt ≥ maxRetries := by
    simp only [maxRetries]; omega
  refine ⟨?_, by linarith, by linarith⟩
  simp [scheduleReconnect, hlt, initialDelay, maxDelay]

/-- Witness for C4: attempt three (counter at two) with jitter 7/2 arms a
delay of 4000 + 7/2. -/
theorem C4_reconnect_delay_witness :
    (scheduleReconnect (7 / 2) wsAttempt2).1.reconnectTimer =
      some (min ((1000 : ℚ) * 2 ^ (3 - 1)) 30000 + 7 / 2) ∧
    min ((1000 : ℚ) * 2 ^ (3 - 1)) 30000 ≤
      min ((1000 : ℚ) * 2 ^ (3 - 1)) 30000 + 7 / 2 ∧
    min ((1000 : ℚ) * 2 ^ (3 - 1)) 30000 + 7 / 2 <
      min ((1000 : ℚ) * 2 ^ (3 - 1)) 30000 + 3000 :=
  C4_reconnect_delay wsAttempt2 3 (7 / 2) rfl (by decide)
    (by norm_num) (by norm_num)

/-! ## C5 -/

/-- An inbound frame is malformed when `JSON.parse` throws on it (`none`)
or `serverMessageSchema.safeParse` rejects the parsed value; this covers
invalid JSON, unknown action tags and schema-violating payloads. -/
def malformedFrame : Option Json → Prop
  | none => True
  | some j => parseServerMessage j = none

/-- C5: processing a malformed frame leaves the connection state unchanged
and produces no effect at all — no frame is sent, no callback (in
particular no error callback) fires, and replaying the (empty) effect list
into the aggregators leaves every aggregator state unchanged. -/
theorem C5_malformed_frames_silent (raw : Option Json) (s : WS)
    (a : AggStates) (h : malformedFrame raw) :
    onmessageHandler raw s = (s, []) ∧
    applyEffects (onmessageHandler raw s).2 a = a := by
  cases raw with
  | none => exact ⟨rfl, rfl⟩
  | some j =>
    have hp : parseServerMessage j = none := h
    refine ⟨?_, ?_⟩ <;> simp [onmessageHandler, hp, applyEffects]

/-- A frame with a known action but a schema-violating payload: the
auth_success variant without its required user_id field. -/
def truncatedAuthFrame : Json := Json.obj [("action", Json.str "auth_success")]

/-- Witness for C5: the truncated auth_success frame is rejected by the
validator and dropped without touching state or firing a callback. -/
theorem C5_malformed_frames_silent_witness :
    onmessageHandler (some truncatedAuthFrame) wsConnected = (wsConnected, []) ∧
    applyEffects (onmessageHandler (some truncatedAuthFrame) wsConnected).2
      ⟨[], HookBatchState.init, FileAggState.init⟩ =
      ⟨[], HookBatchState.init, FileAggState.init⟩ :=
  C5_malformed_frames_silent (some truncatedAuthFrame) wsConnected
    ⟨[], HookBatchState.init, FileAggState.init⟩
    (by simp only [malformedFrame]; decide)

/-! ## C1 -/

/-- A well-formed `batch_progress` frame per the spec's wire protocol. -/
def batchProgressFrame : Json :=
  Json.obj
    [("action", Json.str "batch_progress"),
     ("payload", Json.obj
       [("batch_id", Json.str "3f2c6a1e-9d4b-4f0a-8c5d-2b7e9a1c4d6f"),
        ("status", Json.str "processing"),
        ("total", Json.num 4),
        ("processed", Json.num 1),
        ("successful", Json.num 1),
        ("failed", Json.num 0),
        ("progress_percentage", Json.num 25)])]

/-- A well-formed `file_progress` frame per the spec's wire protocol. -/
def fileProgressFrame : Json :=
  Json.obj
    [("action", Json.str "file_progress"),
     ("payload", Json.obj
       [("upload_id", Json.str "7a1b2c3d-4e5f-4a6b-8c9d-0e1f2a3b4c5d"),
        ("file_name", Json.str "cat.jpg"),
        ("file_size", Json.num 1024),
        ("progress_percentage", Json.num 40),
        ("status", Json.str "processing")])]

/-- C1 (evaluation at the failing inputs): `serverMessageSchema` has no
batch_progress and no file_progress variant, so the validator rejects both
well-formed frames, and the message handler drops them silently — the
registered onBatchProgress / onFileProgress callbacks can never fire, even
though socket.client.ts has dispatch cases for both actions. -/
theorem C1_schema_rejects_batch_and_file_progress :
    parseServerMessage batchProgressFrame = none ∧
    parseServerMessage fileProgressFrame = none ∧
    onmessageHandler (some batchProgressFrame) wsConnected =
      (wsConnected, []) ∧
    onmessageHandler (some fileProgressFrame) wsConnected =
      (wsConnected, []) := by
  refine ⟨by decide, by decide, ?_, ?_⟩ <;>
    simp [onmessageHandler, show parseServerMessage batchProgressFrame = none
      from by decide, show parseServerMessage fileProgressFrame = none
      from by decide]

/-! ## C2 -/

/-- C2 (counterexample): from a live connection, a recoverable close with
code 1006 raises the attempt counter to one, the reconnect timer fires and
a fresh attempt starts, and the moment the socket physically opens the
attempt counter is already back to zero — the trace contains no message
event at all, hence no auth_success. -/
theorem C2_counterexample :
    (runEvs [Ev.wsClose 1006 0, Ev.timerFire (some "tok")]
        wsConnected).1.attempt = 1 ∧
    (runEvs [Ev.wsClose 1006 0, Ev.timerFire (some "tok"), Ev.wsOpen "tok"]
        wsConnected).1.attempt = 0 ∧
    ([Ev.wsClose 1006 0, Ev.timerFire (some "tok"),
        Ev.wsOpen "tok"].all fun e => !e.isMessage) = true := by
  refine ⟨by decide, by decide, by decide⟩

/-- C2 (amended): the retry-attempt counter is reset to zero by the
physical-open handler as soon as the socket opens; receiving a message —
auth_success included — never changes the counter. -/
theorem C2_amended (token : String) (raw : Option Json) (s : WS) :
    (onopenHandler token s).1.attempt = 0 ∧
    (onmessageHandler raw s).1.attempt = s.attempt := by
  refine ⟨rfl, ?_⟩
  cases raw with
  | none => rfl
  | some j =>
    cases hp : parseServerMessage j with
    | none => simp [onmessageHandler, hp]
    | some m =>
      cases m <;> simp [onmessageHandler, hp, closeFn_attempt]

/-! ## C7 -/

/-- If a timer for `id` due at or before `t` is pending, delivering the
timers due at `t` removes `id` from the map. -/
theorem lookupKey_fireDueTimers {α : Type} (t ft : Nat) (id : String)
    (timers : List (Nat × String)) (m : List (String × α))
    (hmem : (ft, id) ∈ timers) (hle : ft ≤ t) :
    lookupKey id (fireDueTimers t timers m).2 = none := by
  apply lookupKey_foldl_eraseKey_of_mem
  exact ⟨(ft, id), List.mem_filter.mpr ⟨hmem, by simpa using hle⟩, rfl⟩

/-- A batch entry with status cancelled, as the store receives it from the
onBatchProgress wiring. -/
def cancelledEntry : BatchProgressState := ⟨"cancelled", 3, 3, 2, 1, 100⟩

/-- C7 (counterexample): in the global store aggregator a cancelled batch
schedules no auto-expiry at all — the entry is still present after the
5000 ms expiry delay has elapsed, so cancelled is not treated identically
to failed by every batch-progress aggregator. -/
theorem C7_counterexample :
    (setBatchProgressStore "b1" cancelledEntry StoreState.init).timers = [] ∧
    lookupKey "b1"
      (advanceStore 5000
        (setBatchProgressStore "b1" cancelledEntry
          StoreState.init)).batchProgress = some cancelledEntry := by
  refine ⟨by decide, by decide⟩

/-- C7 (amended): in the useBatchProgress hook aggregator every terminal
batch event (completed, failed or cancelled — the latter treated exactly
like failed) schedules removal of its entry 5000 ms later and the entry is
gone once that delay has elapsed; in the global store aggregator the same
holds for completed and failed only, while a cancelled update schedules no
auto-expiry. -/
theorem C7_amended :
    (∀ (s : HookBatchState) (d : BatchProgressUpdate),
      d.payload.status = "completed" ∨ d.payload.status = "failed" ∨
        d.payload.status = "cancelled" →
      (s.now + 5000, d.payload.batch_id) ∈ (handleBatchProgress d s).timers ∧
      lookupKey d.payload.batch_id
        (advanceHook (s.now + 5000)
          (handleBatchProgress d s)).batchProgress = none) ∧
    (∀ (st : StoreState) (batchId : String) (p : BatchProgressState),
      p.status = "completed" ∨ p.status = "failed" →
      (st.now + 5000, batchId) ∈ (setBatchProgressStore batchId p st).timers ∧
      lookupKey batchId
        (advanceStore (st.now + 5000)
          (setBatchProgressStore batchId p st)).batchProgress = none) ∧
    (∀ (st : StoreState) (batchId : String) (p : BatchProgressState),
      p.status = "cancelled" →
      (setBatchProgressStore batchId p st).timers = st.timers) := by
  refine ⟨?_, ?_, ?_⟩
  · intro s d h
    have htimers : (handleBatchProgress d s).timers =
        s.timers ++ [(s.now + 5000, d.payload.batch_id)] := by
      simp only [handleBatchProgress]
      rw [if_pos h]
    have hmem : (s.now + 5000, d.payload.batch_id) ∈
        (handleBatchProgress d s).timers := by
      rw [htimers]; simp
    refine ⟨hmem, ?_⟩
    have hnow : (handleBatchProgress d s).now = s.now := by
      simp only [handleBatchProgress]
      rw [if_pos h]
    exact lookupKey_fireDueTimers _ _ _ _ _ hmem le_rfl
  · intro st batchId p h
    have htimers : (setBatchProgressStore batchId p st).timers =
        st.timers ++ [(st.now + 5000, batchId)] := by
      simp only [setBatchProgressStore]
      rw [if_pos h]
    have hmem : (st.now + 5000, batchId) ∈
        (setBatchProgressStore batchId p st).timers := by
      rw [htimers]; simp
    exact ⟨hmem, lookupKey_fireDueTimers _ _ _ _ _ hmem le_rfl⟩
  · intro st batchId p h
    simp only [setBatchProgressStore]
    rw [if_neg]
    simp [h]

/-- Witness for C7 (amended): a concrete cancelled batch event in the hook
aggregator schedules expiry at time 5000 and the entry is gone once time
reaches 5000; a concrete completed entry in the store behaves the same; a
concrete cancelled entry in the store arms no timer. -/
theorem C7_amended_witness :
    ((HookBatchState.init.now + 5000, "b1") ∈
      (handleBatchProgress ⟨⟨"b1", "cancelled", 3, 3, 2, 1, 100⟩⟩
        HookBatchState.init).timers ∧
     lookupKey "b1"
       (advanceHook (HookBatchState.init.now + 5000)
         (handleBatchProgress ⟨⟨"b1", "cancelled", 3, 3, 2, 1, 100⟩⟩
           HookBatchState.init)).batchProgress = none) ∧
    ((StoreState.init.now + 5000, "b2") ∈
      (setBatchProgressStore "b2" ⟨"completed", 2, 2, 2, 0, 100⟩
        StoreState.init).timers ∧
     lookupKey "b2"
       (advanceStore (StoreState.init.now + 5000)
         (setBatchProgressStore "b2" ⟨"completed", 2, 2, 2, 0, 100⟩
           StoreState.init)).batchProgress = none) ∧
    (setBatchProgressStore "b3" cancelledEntry StoreState.init).timers =
      StoreState.init.timers :=
  ⟨C7_amended.1 HookBatchState.init ⟨⟨"b1", "cancelled", 3, 3, 2, 1, 100⟩⟩
      (Or.inr (Or.inr rfl)),
   C7_amended.2.1 StoreState.init "b2" ⟨"completed", 2, 2, 2, 0, 100⟩
      (Or.inl rfl),
   C7_amended.2.2 StoreState.init "b3" cancelledEntry rfl⟩

/-! ## C8 -/

/-- A cancelled batch_progress event for identifier b1. -/
def batchCancelledEvt : BatchProgressUpdate := ⟨⟨"b1", "cancelled", 3, 3, 2, 1, 100⟩⟩

/-- A fresh processing batch_progress event re-creating identifier b1. -/
def batchProcessingEvt : BatchProgressUpdate := ⟨⟨"b1", "processing", 5, 0, 0, 0, 0⟩⟩

/-- C8 (counterexample): a terminal event for b1 arms an auto-expiry,
`clearBatchProgress` removes the entry, a new processing event re-creates
b1 — and when the stale timer fires at time 5000 it deletes the re-created,
non-terminal entry.  So clearing does not cancel the pending auto-expiry. -/
theorem C8_counterexample :
    (handleBatchProgress batchProcessingEvt
      (clearBatchProgress "b1"
        (handleBatchProgress batchCancelledEvt
          HookBatchState.init))).batchProgress =
      [("b1", ⟨"processing", 5, 0, 0, 0, 0⟩)] ∧
    (handleBatchProgress batchProcessingEvt
      (clearBatchProgress "b1"
        (handleBatchProgress batchCancelledEvt
          HookBatchState.init))).timers = [(5000, "b1")] ∧
    lookupKey "b1"
      (advanceHook 5000
        (handleBatchProgress batchProcessingEvt
          (clearBatchProgress "b1"
            (handleBatchProgress batchCancelledEvt
              HookBatchState.init)))).batchProgress = none := by
  refine ⟨by decide, by decide, by decide⟩

/-- C8 (amended): `clearBatchProgress(id)` removes the entry and
`clearAllBatchProgress()` removes every entry (likewise `clearBatch` on the
global store), but none of them cancels a pending auto-expiry timer: the
pending timer list is untouched, so a previously scheduled expiry can later
remove an entry re-created under the same identifier. -/
theorem C8_amended (batchId : String) (s : HookBatchState) (st : StoreState) :
    (clearBatchProgress batchId s).timers = s.timers ∧
    lookupKey batchId (clearBatchProgress batchId s).batchProgress = none ∧
    (clearAllBatchProgress s).timers = s.timers ∧
    (clearAllBatchProgress s).batchProgress = [] ∧
    (clearBatchStore batchId st).timers = st.timers ∧
    lookupKey batchId (clearBatchStore batchId st).batchProgress = none :=
  ⟨rfl, lookupKey_eraseKey_self _ _, rfl, rfl, rfl,
   lookupKey_eraseKey_self _ _⟩

/-! ## C10 -/

/-- The current-file invariant: if a current file is exposed, its status is
processing. -/
def currentFileOk (s : FileAggState) : Prop :=
  ∀ f, s.currentFile = some f → f.status = FStatus.processing

theorem currentFileOk_step (s : FileAggState) (c : FileCall)
    (h : currentFileOk s) : currentFileOk (stepFileCall s c) := by
  cases c with
  | clear => intro f hf; simp [stepFileCall, clearFileProgress] at hf
  | handle d =>
    intro f hf
    cases hst : d.payload.status with
    | processing =>
      simp [stepFileCall, handleFileProgress, hst] at hf
      cases hf
      rfl
    | completed => simp [stepFileCall, handleFileProgress, hst] at hf
    | failed => simp [stepFileCall, handleFileProgress, hst] at hf

theorem currentFileOk_run (calls : List FileCall) (s : FileAggState)
    (h : currentFileOk s) : currentFileOk (runFileCalls calls s) := by
  induction calls generalizing s with
  | nil => exact h
  | cons c rest ih => exact ih _ (currentFileOk_step s c h)

/-- C10: after any sequence of handleFileProgress and clearFileProgress
calls starting from the initial state, the exposed current file is either
absent or has status processing; and a completed or failed event always
resets the current file to none, so a terminal file is never exposed. -/
theorem C10_current_file_invariant :
    (∀ (calls : List FileCall) (f : FileProgressState),
      (runFileCalls calls FileAggState.init).currentFile = some f →
      f.status = FStatus.processing) ∧
    (∀ (s : FileAggState) (d : FileProgressUpdate),
      d.payload.status = FStatus.completed ∨
        d.payload.status = FStatus.failed →
      (handleFileProgress d s).currentFile = none) := by
  constructor
  · intro calls f hf
    exact currentFileOk_run calls FileAggState.init
      (by intro g hg; simp [FileAggState.init] at hg) f hf
  · intro s d h
    rcases h with h | h <;> simp [handleFileProgress, h]

/-- A processing file_progress event for a concrete upload. -/
def fileProcessingEvt : FileProgressUpdate :=
  ⟨⟨"u1", "cat.jpg", 1024, 40, FStatus.processing⟩⟩

/-- A completed file_progress event for the same upload. -/
def fileCompletedEvt : FileProgressUpdate :=
  ⟨⟨"u1", "cat.jpg", 1024, 100, FStatus.completed⟩⟩

/-- Witness for C10: the current file exposed after a processing event has
status processing, and a completed event clears the current file. -/
theorem C10_current_file_invariant_witness :
    (⟨"u1", "cat.jpg", 1024, 40, FStatus.processing⟩ :
        FileProgressState).status = FStatus.processing ∧
    (handleFileProgress fileCompletedEvt
      (runFileCalls [FileCall.handle fileProcessingEvt]
        FileAggState.init)).currentFile = none :=
  ⟨C10_current_file_invariant.1 [FileCall.handle fileProcessingEvt]
      ⟨"u1", "cat.jpg", 1024, 40, FStatus.processing⟩ (by decide),
   C10_current_file_invariant.2
      (runFileCalls [FileCall.handle fileProcessingEvt] FileAggState.init)
      fileCompletedEvt (Or.inl rfl)⟩

/-! ## C6

The reconnection loop is driven by `failStep`: while a socket attempt is in
flight (`live`), it fails and closes with code 1006; if that armed a
reconnect timer, the timer fires and `connect()` starts the next attempt.
No attempt ever reaches the open state, which is the regime the amended
claim speaks about. -/

structure Drive where
  s : WS
  live : Bool
  deriving Repr, DecidableEq

/-- The driver start state: the initial `connect()` has created a socket
whose attempt is about to fail. -/
def Drive.start : Drive := ⟨{ WS.init with ws := true }, true⟩

/-- One failed connection attempt followed by the resulting timer fire. -/
def failStep (jitter : ℚ) (token : String) (d : Drive) : Drive × List Effect :=
  if d.live then
    let c := oncloseHandler 1006 jitter d.s
    match c.1.reconnectTimer with
    | some _ =>
      let c2 := connectFn (some token) { c.1 with reconnectTimer := none }
      (⟨c2.1, true⟩, c.2 ++ c2.2)
    | none => (⟨c.1, false⟩, c.2)
  else (d, [])

/-- Iterate `failStep` with a jitter draw per step. -/
def runFailures (jf : Nat → ℚ) (token : String) :
    Nat → Drive → Drive × List Effect
  | 0, d => (d, [])
  | n + 1, d =>
    let st := failStep (jf n) token d
    let r := runFailures jf token n st.1
    (r.1, st.2 ++ r.2)

theorem countMaxRetries_stopHeartbeat (s : WS) :
    countMaxRetries (stopHeartbeat s).2 = 0 := by
  cases hs : s.heartbeatTimer <;>
    simp [stopHeartbeat, hs, countMaxRetries, isMaxRetriesError]

theorem runFailures_dead (jf : Nat → ℚ) (token : String) (n : Nat)
    (d : Drive) (h : d.live = false) :
    runFailures jf token n d = (d, []) := by
  induction n with
  | zero => rfl
  | succ n ih => simp [runFailures, failStep, h, ih]

theorem failStep_exhausted (jitter : ℚ) (token : String) (d : Drive)
    (hlive : d.live = true) (hint : d.s.isIntentionallyClosed = false)
    (ht : d.s.reconnectTimer = none) (ha : d.s.attempt = 10) :
    failStep jitter token d =
      (⟨{ d.s with heartbeatTimer := false }, false⟩,
       (stopHeartbeat d.s).2 ++ [Effect.cbError .maxRetries]) := by
  have hsh := stopHeartbeat_state d.s
  have hge : maxRetries ≤ d.s.attempt := by
    simp only [maxRetries]; omega
  simp [failStep, hlive, oncloseHandler, hsh, hint, scheduleReconnect,
    hge, ht]

theorem failStep_retry (jitter : ℚ) (token : String) (d : Drive)
    (hlive : d.live = true) (hint : d.s.isIntentionallyClosed = false)
    (ht : d.s.reconnectTimer = none) (ha : d.s.attempt < 10) :
    failStep jitter token d =
      (⟨{ ws := true, attempt := d.s.attempt + 1, heartbeatTimer := false,
          reconnectTimer := none, isIntentionallyClosed := false }, true⟩,
       (stopHeartbeat d.s).2) := by
  have hsh := stopHeartbeat_state d.s
  have hge : ¬ maxRetries ≤ d.s.attempt := by
    simp only [maxRetries]; omega
  simp [failStep, hlive, oncloseHandler, hsh, hint, scheduleReconnect,
    hge, connectFn]

/-- Counting MAX_RETRIES reports along a pure-failure run: exactly one
report appears as soon as the run is long enough to burn the whole attempt
budget, after which the driver is dead with no timer pending. -/
theorem runFailures_spec (jf : Nat → ℚ) (token : String) :
    ∀ (n : Nat) (d : Drive), d.live = true →
    d.s.isIntentionallyClosed = false →
    d.s.reconnectTimer = none →
    d.s.attempt ≤ 10 →
    countMaxRetries (runFailures jf token n d).2 =
      (if 10 - d.s.attempt < n then 1 else 0) ∧
    (10 - d.s.attempt < n →
      (runFailures jf token n d).1.live = false ∧
      (runFailures jf token n d).1.s.reconnectTimer = none) := by
  intro n
  induction n with
  | zero =>
    intro d _ _ _ _
    refine ⟨?_, ?_⟩
    · simp [runFailures, countMaxRetries]
    · omega
  | succ n ih =>
    intro d hlive hint ht ha
    have hzero : List.countP isMaxRetriesError (stopHeartbeat d.s).2 = 0 := by
      have hz := countMaxRetries_stopHeartbeat d.s
      simpa only [countMaxRetries] using hz
    have hrun : runFailures jf token (n + 1) d =
        ((runFailures jf token n (failStep (jf n) token d).1).1,
         (failStep (jf n) token d).2 ++
           (runFailures jf token n (failStep (jf n) token d).1).2) := rfl
    by_cases hfull : d.s.attempt = 10
    · have hstep := failStep_exhausted (jf n) token d hlive hint ht hfull
      have hdead := runFailures_dead jf token n
        (Drive.mk { d.s with heartbeatTimer := false } false) rfl
      rw [hrun, hstep]
      simp only [hdead]
      refine ⟨?_, ?_⟩
      · simp only [countMaxRetries, List.countP_append, hzero,
          List.countP_cons, List.countP_nil, isMaxRetriesError]
        rw [if_pos (by omega : 10 - d.s.attempt < n + 1)]
        simp
      · intro _
        refine ⟨?_, ?_⟩ <;> simp [ht]
    · have hlt : d.s.attempt < 10 := by omega
      have hstep := failStep_retry (jf n) token d hlive hint ht hlt
      have ihd := ih (Drive.mk
        { ws := true, attempt := d.s.attempt + 1, heartbeatTimer := false,
          reconnectTimer := none, isIntentionallyClosed := false } true)
        rfl rfl rfl (by simp only []; omega)
      rw [hrun, hstep]
      refine ⟨?_, ?_⟩
      · simp only [countMaxRetries, List.countP_append, hzero,
          Nat.zero_add]
        have hcnt := ihd.1
        simp only [countMaxRetries] at hcnt
        rw [hcnt]
        by_cases hc : 10 - (d.s.attempt + 1) < n
        · rw [if_pos hc, if_pos (by omega)]
        · rw [if_neg hc, if_neg (by omega)]
      · intro hbound
        have hb2 : 10 - (d.s.attempt + 1) < n := by omega
        exact ⟨(ihd.2 hb2).1, (ihd.2 hb2).2⟩

/-- One failed-attempt cycle in which the attempt physically opens before
dying: abnormal close (1006), reconnect timer fires, fresh socket opens. -/
def openCloseCycle : List Ev :=
  [Ev.wsClose 1006 0, Ev.timerFire (some "tok"), Ev.wsOpen "tok"]

/-- Ten consecutive failed connection attempts, each of which reaches the
physical open state but never authenticates (the trace contains no message
event, hence no auth_success). -/
def tenFailuresWithOpens : List Ev :=
  (List.replicate 10 openCloseCycle).flatten

def Ev.isClose : Ev → Bool
  | .wsClose _ _ => true
  | _ => false

/-- C6 (counterexample): ten consecutive failed attempts without any
auth_success — but with physical opens — never trigger MAX_RETRIES,
because the open handler keeps resetting the attempt counter; and the very
next abnormal close arms yet another reconnect timer.  So the claim's
"without an intervening auth_success" qualifier does not match the code. -/
theorem C6_counterexample :
    (tenFailuresWithOpens.countP Ev.isClose) = 10 ∧
    (tenFailuresWithOpens.all fun e => !e.isMessage) = true ∧
    countMaxRetries (runEvs tenFailuresWithOpens wsConnected).2 = 0 ∧
    (runEvs (tenFailuresWithOpens ++ [Ev.wsClose 1006 0])
        wsConnected).1.reconnectTimer.isSome = true ∧
    countMaxRetries (runEvs (tenFailuresWithOpens ++ [Ev.wsClose 1006 0])
        wsConnected).2 = 0 := by
  refine ⟨by decide, by decide, by decide, by decide, by decide⟩

/-- C6 (amended): after the attempt budget of 10 retries is consumed by
consecutive failed connection attempts none of which reaches the physical
open state (rather than: none of which receives auth_success), the
MAX_RETRIES error fires exactly once over the whole run — however much
longer the run continues — no further reconnect timer is armed, and no
live socket remains, so no further automatic reconnection occurs. -/
theorem C6_amended (jf : Nat → ℚ) (token : String) (n : Nat)
    (hn : 11 ≤ n) :
    countMaxRetries (runFailures jf token n Drive.start).2 = 1 ∧
    (runFailures jf token n Drive.start).1.live = false ∧
    (runFailures jf token n Drive.start).1.s.reconnectTimer = none := by
  have h := runFailures_spec jf token n Drive.start rfl rfl rfl
    (by simp [Drive.start, WS.init])
  have hb : 10 - Drive.start.s.attempt < n := by
    simp only [Drive.start, WS.init]
    omega
  exact ⟨by rw [h.1, if_pos hb], (h.2 hb).1, (h.2 hb).2⟩

/-- Witness for C6 (amended): a run of eleven pure failures with zero
jitter reports MAX_RETRIES exactly once and ends dead with no timer
pending. -/
theorem C6_amended_witness :
    countMaxRetries (runFailures (fun _ => 0) "tok" 11 Drive.start).2 = 1 ∧
    (runFailures (fun _ => 0) "tok" 11 Drive.start).1.live = false ∧
    (runFailures (fun _ => 0) "tok" 11 Drive.start).1.s.reconnectTimer =
      none :=
  C6_amended (fun _ => 0) "tok" 11 (by decide)

end Vuemantics
